import Mathlib

/-!
Shallow embedding of the Vital-Sign Risk Classifier of
`src/tools/health_insights.py` (class `HealthInsights`).

Modelling conventions:
* Python numbers are embedded as rationals (`ℚ`); every numeric literal in
  the source is an exact decimal, so all threshold comparisons agree with
  the source's float comparisons on the decimal inputs considered here.
* A Python dict of metrics is embedded as a record of optional fields
  (`Option ℚ`), `none` meaning the key is absent.
* A pandas `DataFrame` of numeric columns is embedded as a row count plus a
  list of named columns; columns are modelled fully present (no NaN cells).
* A Python call that raises (the `ZeroDivisionError` reachable in the BMI
  computation of `_identify_risk_factors`) is embedded as `Option`:
  `none` means the call raised and returned nothing.
-/

/-- Measurement snapshot passed to `analyze_health_metrics`: a metrics dict
whose recognised numeric keys may each be present or absent. -/
structure Metrics where
  systolic : Option ℚ
  diastolic : Option ℚ
  heart_rate : Option ℚ
  temperature : Option ℚ
  height : Option ℚ
  weight : Option ℚ
deriving Inhabited

/-- Result dict of `_analyze_blood_pressure`. -/
structure BPResult where
  category : String
  systolic : ℚ
  diastolic : ℚ
  needs_attention : Bool
deriving Inhabited, DecidableEq

/-- Result dict of `_analyze_heart_rate`. -/
structure HRResult where
  value : ℚ
  category : String
  needs_attention : Bool
deriving Inhabited, DecidableEq

/-- Result dict of `_analyze_temperature`. -/
structure TempResult where
  value : ℚ
  category : String
  needs_attention : Bool
deriving Inhabited, DecidableEq

/-- Ordered rule table built by `_analyze_blood_pressure`: the `categories`
dict, in insertion order, each label paired with its condition's value. -/
def bpCategories (systolic diastolic : ℚ) : List (String × Bool) :=
  [("normal", decide (systolic < 120 ∧ diastolic < 80)),
   ("elevated", decide (120 ≤ systolic ∧ systolic ≤ 129 ∧ diastolic < 80)),
   ("stage1", decide ((130 ≤ systolic ∧ systolic ≤ 139) ∨
                      (80 ≤ diastolic ∧ diastolic ≤ 89))),
   ("stage2", decide (140 ≤ systolic ∨ 90 ≤ diastolic)),
   ("crisis", decide (180 < systolic ∨ 120 < diastolic))]

/-- Embedding of `_analyze_blood_pressure`: the first label of the ordered
rule table whose condition holds (`next(..., "unknown")`), with
`needs_attention` true iff the chosen category is `stage2` or `crisis`. -/
def analyze_blood_pressure (systolic diastolic : ℚ) : BPResult :=
  let category :=
    (((bpCategories systolic diastolic).find? (fun kv => kv.2)).map Prod.fst).getD "unknown"
  { category := category
    systolic := systolic
    diastolic := diastolic
    needs_attention := decide (category ∈ ["stage2", "crisis"]) }

/-- Embedding of `_analyze_heart_rate`. -/
def analyze_heart_rate (heart_rate : ℚ) : HRResult :=
  { value := heart_rate
    category := if 60 ≤ heart_rate ∧ heart_rate ≤ 100 then "normal" else "abnormal"
    needs_attention := decide (heart_rate < 60 ∨ 100 < heart_rate) }

/-- Embedding of `_analyze_temperature`. -/
def analyze_temperature (temperature : ℚ) : TempResult :=
  { value := temperature
    category := if 36.1 ≤ temperature ∧ temperature ≤ 37.2 then "normal" else "abnormal"
    needs_attention := decide (38.0 < temperature) }

/-- Unfolding of the ordered first-match rule table of
`_analyze_blood_pressure` into an if-chain, one branch per rule in table
order. -/
theorem analyze_blood_pressure_category (s d : ℚ) :
    (analyze_blood_pressure s d).category =
      if s < 120 ∧ d < 80 then "normal"
      else if 120 ≤ s ∧ s ≤ 129 ∧ d < 80 then "elevated"
      else if (130 ≤ s ∧ s ≤ 139) ∨ (80 ≤ d ∧ d ≤ 89) then "stage1"
      else if 140 ≤ s ∨ 90 ≤ d then "stage2"
      else if 180 < s ∨ 120 < d then "crisis"
      else "unknown" := by
  by_cases h1 : s < 120 ∧ d < 80 <;>
  by_cases h2 : 120 ≤ s ∧ s ≤ 129 ∧ d < 80 <;>
  by_cases h3 : (130 ≤ s ∧ s ≤ 139) ∨ (80 ≤ d ∧ d ≤ 89) <;>
  by_cases h4 : 140 ≤ s ∨ 90 ≤ d <;>
  by_cases h5 : 180 < s ∨ 120 < d <;>
  simp [analyze_blood_pressure, bpCategories, List.find?, h1, h2, h3, h4, h5] <;>
  (try (have hs : ¬ s < 120 := by linarith [h2.1]
        simp [hs]))

/-- The `needs_attention` flag of `_analyze_blood_pressure` is exactly
membership of the chosen category in `["stage2", "crisis"]`. -/
theorem analyze_blood_pressure_flag (s d : ℚ) :
    (analyze_blood_pressure s d).needs_attention = true ↔
      ((analyze_blood_pressure s d).category = "stage2" ∨
       (analyze_blood_pressure s d).category = "crisis") := by
  simp [analyze_blood_pressure]

/-- Entry of the trends dict for one metric column. -/
structure TrendEntry where
  trend : String
  slope : ℚ
deriving Inhabited, DecidableEq

/-- Return value of `_calculate_trends`: either the insufficient-data error
dict or the per-column trends dict (as an ordered association list). -/
inductive TrendsResult where
  | insufficient (msg : String)
  | trends (entries : List (String × TrendEntry))
deriving Inhabited, DecidableEq

/-- Embedding of a pandas `DataFrame` of numeric columns: the row count
(`len(df)`) and the named columns in column order. Columns are modelled with
every cell present (no NaN), so `dropna()` keeps a column unchanged. -/
structure Frame where
  nrows : ℕ
  cols : List (String × List ℚ)

/-- Closed-form slope of the degree-1 least-squares fit of the values `ys`
against index positions `0..n-1`: the first coefficient returned by
`np.polyfit(range(n), ys, 1)`. -/
def polyfitSlope (ys : List ℚ) : ℚ :=
  let n : ℚ := ys.length
  let sx : ℚ := ((List.range ys.length).map fun i => (i : ℚ)).sum
  let sxx : ℚ := ((List.range ys.length).map fun i => (i : ℚ) ^ 2).sum
  let sxy : ℚ := (ys.enum.map fun p => (p.1 : ℚ) * p.2).sum
  (n * sxy - sx * ys.sum) / (n * sxx - sx ^ 2)

/-- Embedding of `_calculate_trends`: with fewer than 2 rows return the
error dict; otherwise fit each numeric column having at least 2
(non-missing) values and classify its slope, `"increasing"` iff positive. -/
def calculate_trends (df : Frame) : TrendsResult :=
  if df.nrows < 2 then .insufficient "Insufficient data for trend analysis"
  else .trends (df.cols.filterMap fun c =>
    if 2 ≤ c.2.length then
      some (c.1, { trend := if 0 < polyfitSlope c.2 then "increasing" else "decreasing"
                   slope := polyfitSlope c.2 })
    else none)

/-- Value field of a risk factor: the BMI factor carries the computed number,
the blood-pressure factor carries the `"systolic/diastolic"` string, embedded
as the pair of its two components. -/
inductive RFValue where
  | num (q : ℚ)
  | pair (systolic diastolic : ℚ)
deriving Inhabited, DecidableEq

/-- One entry of the list returned by `_identify_risk_factors`. -/
structure RiskFactor where
  factor : String
  value : RFValue
  category : String
  priority : String
deriving Inhabited, DecidableEq

/-- BMI block of `_identify_risk_factors`: when both height and weight are
present, compute `weight / height ** 2`; `none` embeds the
`ZeroDivisionError` raised when the present height is zero. -/
def bmiRisk (m : Metrics) : Option (List RiskFactor) :=
  match m.height, m.weight with
  | some h, some w =>
    if h ^ 2 = 0 then none
    else
      let bmi := w / h ^ 2
      some (if 25 ≤ bmi then
        [{ factor := "BMI"
           value := .num bmi
           category := if bmi < 30 then "overweight" else "obese"
           priority := if bmi < 30 then "medium" else "high" }]
      else [])
  | _, _ => some []

/-- Blood-pressure block of `_identify_risk_factors`: when both readings are
present and the classified category is stage1, stage2 or crisis, emit the
blood-pressure factor. -/
def bpRisk (m : Metrics) : List RiskFactor :=
  match m.systolic, m.diastolic with
  | some s, some d =>
    let bp := analyze_blood_pressure s d
    if bp.category ∈ ["stage1", "stage2", "crisis"] then
      [{ factor := "Blood Pressure"
         value := .pair s d
         category := bp.category
         priority := if bp.needs_attention then "high" else "medium" }]
    else []
  | _, _ => []

/-- Embedding of `_identify_risk_factors`: the BMI block runs first and
appends its factor, then the blood-pressure block appends its factor. -/
def identify_risk_factors (m : Metrics) : Option (List RiskFactor) :=
  (bmiRisk m).map (fun l => l ++ bpRisk m)

/-- Nested `vital_signs` dict of the stats returned by
`analyze_health_metrics`. -/
structure VitalSigns where
  blood_pressure : BPResult
  heart_rate : HRResult
  temperature : TempResult
deriving Inhabited

/-- Stats dict returned by `analyze_health_metrics`. -/
structure Stats where
  vital_signs : VitalSigns
  trends : TrendsResult
  risk_factors : List RiskFactor
deriving Inhabited

/-- One-row `DataFrame` built by `pd.DataFrame([metrics])`: each present
metric key becomes a numeric column holding that single value. -/
def metricsFrame (m : Metrics) : Frame :=
  { nrows := 1
    cols := ([("systolic", m.systolic), ("diastolic", m.diastolic),
              ("heart_rate", m.heart_rate), ("temperature", m.temperature),
              ("height", m.height), ("weight", m.weight)]).filterMap
      fun kv => kv.2.map fun v => (kv.1, [v]) }

/-- Embedding of `analyze_health_metrics`: absent vital fields default to 0
via `metrics.get(..., 0)`; trends are computed over the one-row frame; the
whole call returns `none` when `_identify_risk_factors` raises. -/
def analyze_health_metrics (m : Metrics) : Option Stats :=
  (identify_risk_factors m).map fun rfs =>
    { vital_signs :=
        { blood_pressure := analyze_blood_pressure (m.systolic.getD 0) (m.diastolic.getD 0)
          heart_rate := analyze_heart_rate (m.heart_rate.getD 0)
          temperature := analyze_temperature (m.temperature.getD 0) }
      trends := calculate_trends (metricsFrame m)
      risk_factors := rfs }

/-- C1 counterexample: the reading (190, 85) is in the crisis range
(systolic > 180), yet `_analyze_blood_pressure` classifies it as `stage1`,
not `stage2`, because the stage1 rule (80 ≤ diastolic ≤ 89) matches first. -/
theorem bp_crisis_returns_stage1_cex :
    (180:ℚ) < 190 ∧ (analyze_blood_pressure 190 85).category ≠ "stage2" ∧
    (analyze_blood_pressure 190 85).category = "stage1" := by
  refine ⟨by norm_num, by decide, by decide⟩

/-- C1 (amended): a crisis-range reading (systolic > 180 or diastolic > 120)
is never classified `crisis`; it is classified `stage1` when the stage1 rule
also matches (130 ≤ systolic ≤ 139 or 80 ≤ diastolic ≤ 89) and `stage2`
otherwise; in particular `_analyze_blood_pressure(190, 70)` returns `stage2`
with `needs_attention` true. -/
theorem bp_crisis_precedence (s d : ℚ) (hc : 180 < s ∨ 120 < d) :
    ((analyze_blood_pressure s d).category =
       if (130 ≤ s ∧ s ≤ 139) ∨ (80 ≤ d ∧ d ≤ 89) then "stage1" else "stage2") ∧
    (analyze_blood_pressure s d).category ≠ "crisis" ∧
    (analyze_blood_pressure 190 70).category = "stage2" ∧
    (analyze_blood_pressure 190 70).needs_attention = true := by
  have hnormal : ¬(s < 120 ∧ d < 80) := by
    rcases hc with h | h <;> rintro ⟨a, b⟩ <;> linarith
  have helev : ¬(120 ≤ s ∧ s ≤ 129 ∧ d < 80) := by
    rcases hc with h | h <;> rintro ⟨a, b, c⟩ <;> linarith
  have hstage2 : 140 ≤ s ∨ 90 ≤ d := by
    rcases hc with h | h
    · exact Or.inl (by linarith)
    · exact Or.inr (by linarith)
  have key : (analyze_blood_pressure s d).category =
      if (130 ≤ s ∧ s ≤ 139) ∨ (80 ≤ d ∧ d ≤ 89) then "stage1" else "stage2" := by
    rw [analyze_blood_pressure_category, if_neg hnormal, if_neg helev]
    by_cases hs1 : (130 ≤ s ∧ s ≤ 139) ∨ (80 ≤ d ∧ d ≤ 89)
    · rw [if_pos hs1, if_pos hs1]
    · rw [if_neg hs1, if_neg hs1, if_pos hstage2]
  refine ⟨key, ?_, by decide, by decide⟩
  rw [key]
  split <;> decide

/-- C1 witness: the amended statement applied at the crisis-range reading
(190, 85). -/
theorem bp_crisis_precedence_witness :
    ((analyze_blood_pressure 190 85).category =
       if ((130:ℚ) ≤ 190 ∧ (190:ℚ) ≤ 139) ∨ ((80:ℚ) ≤ 85 ∧ (85:ℚ) ≤ 89)
       then "stage1" else "stage2") ∧
    (analyze_blood_pressure 190 85).category ≠ "crisis" ∧
    (analyze_blood_pressure 190 70).category = "stage2" ∧
    (analyze_blood_pressure 190 70).needs_attention = true :=
  bp_crisis_precedence 190 85 (Or.inl (by norm_num))

/-- C3 counterexample: the nonnegative reading (100, 89.5) makes every rule
condition of `_analyze_blood_pressure` false (89.5 falls in the gap between
`diastolic ≤ 89` and `90 ≤ diastolic`), so the defensive `unknown` fallback
is reached. -/
theorem bp_unknown_reachable_cex :
    (0:ℚ) ≤ 100 ∧ (0:ℚ) ≤ 89.5 ∧
    (analyze_blood_pressure 100 89.5).category = "unknown" := by
  refine ⟨by norm_num, by norm_num, ?_⟩
  rw [analyze_blood_pressure_category]
  norm_num

/-- C3 (amended): for whole-number readings the five rule conditions of
`_analyze_blood_pressure` do cover the range, so the category is always one
of the five labels and the `unknown` fallback is unreachable; the fallback is
reachable only for fractional readings in the gaps (129, 130) for systolic
and (89, 90) for diastolic. -/
theorem bp_integer_coverage (s d : ℕ) :
    (analyze_blood_pressure (s : ℚ) (d : ℚ)).category ∈
      (["normal", "elevated", "stage1", "stage2", "crisis"] : List String) := by
  rw [analyze_blood_pressure_category]
  split_ifs with h1 h2 h3 h4 h5
  · simp
  · simp
  · simp
  · simp
  · simp
  · exfalso
    push_neg at h1 h2 h3 h4
    have hs140 : s < 140 := by exact_mod_cast h4.1
    have hd90 : d < 90 := by exact_mod_cast h4.2
    have hs130 : s < 130 := by
      by_contra hs
      push_neg at hs
      have hq : (139:ℚ) < (s : ℚ) := h3.1 (by exact_mod_cast hs)
      have : (139:ℕ) < s := by exact_mod_cast hq
      omega
    have hd80 : d < 80 := by
      by_contra hd
      push_neg at hd
      have hq : (89:ℚ) < (d : ℚ) := h3.2 (by exact_mod_cast hd)
      have : (89:ℕ) < d := by exact_mod_cast hq
      omega
    have hs120 : 120 ≤ s := by
      by_contra hs
      push_neg at hs
      have hq : (80:ℚ) ≤ (d : ℚ) := h1 (by exact_mod_cast hs)
      have : (80:ℕ) ≤ d := by exact_mod_cast hq
      omega
    have hq : (80:ℚ) ≤ (d : ℚ) :=
      h2 (by exact_mod_cast hs120) (by exact_mod_cast (show s ≤ 129 by omega))
    have : (80:ℕ) ≤ d := by exact_mod_cast hq
    omega

/-- C5: `_analyze_temperature` classifies `normal` exactly on
36.1 ≤ celsius ≤ 37.2 and flags attention exactly on celsius > 38.0; the two
thresholds are independent, so readings in (37.2, 38.0] — e.g. 37.5 — are
`abnormal` yet not flagged. -/
theorem temperature_spec (c : ℚ) :
    ((analyze_temperature c).category = "normal" ↔ (36.1 ≤ c ∧ c ≤ 37.2)) ∧
    ((analyze_temperature c).category = "abnormal" ↔ ¬(36.1 ≤ c ∧ c ≤ 37.2)) ∧
    ((analyze_temperature c).needs_attention = true ↔ 38.0 < c) ∧
    (37.2 < c ∧ c ≤ 38.0 →
      (analyze_temperature c).category = "abnormal" ∧
      (analyze_temperature c).needs_attention = false) ∧
    (analyze_temperature 37.5).category = "abnormal" ∧
    (analyze_temperature 37.5).needs_attention = false := by
  have hcat : (analyze_temperature c).category = "normal" ↔ (36.1 ≤ c ∧ c ≤ 37.2) := by
    simp only [analyze_temperature]
    split_ifs with h <;> simp [h]
  have hcata : (analyze_temperature c).category = "abnormal" ↔ ¬(36.1 ≤ c ∧ c ≤ 37.2) := by
    simp only [analyze_temperature]
    split_ifs with h <;> simp [h]
  have hatt : (analyze_temperature c).needs_attention = true ↔ 38.0 < c := by
    simp [analyze_temperature]
  refine ⟨hcat, hcata, hatt, fun hc => ⟨?_, ?_⟩,
    by norm_num [analyze_temperature], by norm_num [analyze_temperature]⟩
  · rw [hcata]
    rintro ⟨h1, h2⟩
    linarith [hc.1]
  · have h38 : ¬((38.0:ℚ) < c) := not_lt.mpr hc.2
    simp [analyze_temperature, h38]

/-- C8: systolic < 120 with diastolic < 80 yields category `normal` with no
attention flag, and the `needs_attention` flag of `_analyze_blood_pressure`
holds exactly when the category is `stage2` or `crisis`. -/
theorem bp_normal_and_flag (s d : ℚ) :
    (s < 120 ∧ d < 80 →
      (analyze_blood_pressure s d).category = "normal" ∧
      (analyze_blood_pressure s d).needs_attention = false) ∧
    ((analyze_blood_pressure s d).needs_attention = true ↔
      ((analyze_blood_pressure s d).category = "stage2" ∨
       (analyze_blood_pressure s d).category = "crisis")) := by
  refine ⟨fun h => ?_, analyze_blood_pressure_flag s d⟩
  have hcat : (analyze_blood_pressure s d).category = "normal" := by
    rw [analyze_blood_pressure_category, if_pos h]
  refine ⟨hcat, ?_⟩
  have hflag := analyze_blood_pressure_flag s d
  rw [hcat] at hflag
  simp at hflag
  exact hflag

/-- C9: `_analyze_heart_rate` classifies `normal` exactly on
60 ≤ bpm ≤ 100, flags attention exactly on bpm < 60 or bpm > 100 — i.e.
exactly when the category is `abnormal` — and in particular 45 is abnormal
and flagged while 80 is normal and unflagged. -/
theorem heart_rate_spec (bpm : ℚ) :
    ((analyze_heart_rate bpm).category = "normal" ↔ (60 ≤ bpm ∧ bpm ≤ 100)) ∧
    ((analyze_heart_rate bpm).category = "abnormal" ↔ ¬(60 ≤ bpm ∧ bpm ≤ 100)) ∧
    ((analyze_heart_rate bpm).needs_attention = true ↔ (bpm < 60 ∨ 100 < bpm)) ∧
    ((analyze_heart_rate bpm).needs_attention = true ↔
      (analyze_heart_rate bpm).category = "abnormal") ∧
    (analyze_heart_rate 45).category = "abnormal" ∧
    (analyze_heart_rate 45).needs_attention = true ∧
    (analyze_heart_rate 80).category = "normal" ∧
    (analyze_heart_rate 80).needs_attention = false := by
  have hcatn : (analyze_heart_rate bpm).category = "normal" ↔ (60 ≤ bpm ∧ bpm ≤ 100) := by
    simp only [analyze_heart_rate]
    split_ifs with h <;> simp [h]
  have hcata : (analyze_heart_rate bpm).category = "abnormal" ↔ ¬(60 ≤ bpm ∧ bpm ≤ 100) := by
    simp only [analyze_heart_rate]
    split_ifs with h <;> simp [h]
  have hatt : (analyze_heart_rate bpm).needs_attention = true ↔ (bpm < 60 ∨ 100 < bpm) := by
    simp [analyze_heart_rate]
  refine ⟨hcatn, hcata, hatt, ?_, by decide, by decide, by decide, by decide⟩
  rw [hatt, hcata, not_and_or, not_le, not_le]

/-- C7: with fewer than 2 rows of history, `_calculate_trends` returns the
explicit insufficient-data marker dict rather than per-metric results (and,
being a total function of the frame, does not fail). -/
theorem trends_insufficient (df : Frame) (h : df.nrows < 2) :
    calculate_trends df = .insufficient "Insufficient data for trend analysis" := by
  simp [calculate_trends, h]

/-- C7 witness: the marker is returned for an empty history. -/
theorem trends_insufficient_witness :
    calculate_trends ⟨0, []⟩ = .insufficient "Insufficient data for trend analysis" :=
  trends_insufficient ⟨0, []⟩ (by norm_num)

/-- C6: over a history of at least 2 rows, every fully present column of at
least 2 values gets a trends entry whose slope is the least-squares slope of
its values against positions 0..n-1 and whose trend is increasing iff that
slope is positive (otherwise decreasing, also at slope 0); over the history
[60, 70, 80] the hr column gets trend increasing with slope 10. -/
theorem trends_slope_spec (df : Frame) (h2 : 2 ≤ df.nrows) (name : String)
    (vals : List ℚ) (hmem : (name, vals) ∈ df.cols) (hlen : 2 ≤ vals.length) :
    (∃ entries, calculate_trends df = .trends entries ∧
      (name, ({ trend := if 0 < polyfitSlope vals then "increasing" else "decreasing"
                slope := polyfitSlope vals } : TrendEntry)) ∈ entries) ∧
    calculate_trends ⟨3, [("hr", [60, 70, 80])]⟩ =
      .trends [("hr", { trend := "increasing", slope := 10 })] := by
  constructor
  · refine ⟨df.cols.filterMap fun c =>
        if 2 ≤ c.2.length then
          some (c.1, { trend := if 0 < polyfitSlope c.2 then "increasing" else "decreasing"
                       slope := polyfitSlope c.2 })
        else none, ?_, ?_⟩
    · rw [calculate_trends, if_neg (by omega)]
    · rw [List.mem_filterMap]
      exact ⟨(name, vals), hmem, by rw [if_pos hlen]⟩
  · have hslope : polyfitSlope [60, 70, 80] = 10 := by
      norm_num [polyfitSlope, List.enum, List.enumFrom, List.range, List.range.loop]
    rw [calculate_trends, if_neg (by norm_num)]
    simp [hslope]

/-- C6 witness: the general statement applied to the three-row hr history. -/
theorem trends_slope_spec_witness :
    (∃ entries, calculate_trends ⟨3, [("hr", [60, 70, 80])]⟩ = .trends entries ∧
      ("hr", ({ trend := if 0 < polyfitSlope [60, 70, 80] then "increasing" else "decreasing"
                slope := polyfitSlope [60, 70, 80] } : TrendEntry)) ∈ entries) ∧
    calculate_trends ⟨3, [("hr", [60, 70, 80])]⟩ =
      .trends [("hr", { trend := "increasing", slope := 10 })] :=
  trends_slope_spec ⟨3, [("hr", [60, 70, 80])]⟩ (by norm_num) "hr" [60, 70, 80]
    (by simp) (by norm_num)

/-- C2: `analyze_health_metrics` builds a one-row frame from its single
metrics dict, so whenever it returns stats their trends field is the
insufficient-data marker, never per-metric trend entries. -/
theorem analyze_single_snapshot_trends (m : Metrics) (s : Stats)
    (h : analyze_health_metrics m = some s) :
    s.trends = .insufficient "Insufficient data for trend analysis" := by
  obtain ⟨rfs, hrf, rfl⟩ := Option.map_eq_some'.mp h
  simp [calculate_trends, metricsFrame]

/-- C2 witness: the statement applied to the empty metrics dict. -/
theorem analyze_single_snapshot_trends_witness :
    Stats.trends
      { vital_signs :=
          { blood_pressure := analyze_blood_pressure 0 0
            heart_rate := analyze_heart_rate 0
            temperature := analyze_temperature 0 }
        trends := calculate_trends (metricsFrame ⟨none, none, none, none, none, none⟩)
        risk_factors := [] } =
    .insufficient "Insufficient data for trend analysis" :=
  analyze_single_snapshot_trends ⟨none, none, none, none, none, none⟩ _ rfl

/-- Characterisation of the BMI block: when it does not raise, it yields at
most one factor, that factor is the BMI factor with the categories and
priorities of the source thresholds, and a factor is emitted exactly when
height and weight are present with BMI at least 25. -/
theorem bmiRisk_spec (m : Metrics) (bl : List RiskFactor) (hbl : bmiRisk m = some bl) :
    bl.length ≤ 1 ∧
    (∀ f ∈ bl, f.factor = "BMI" ∧
      ∃ hgt wgt, m.height = some hgt ∧ m.weight = some wgt ∧
        f.value = RFValue.num (wgt / hgt ^ 2) ∧
        ((wgt / hgt ^ 2 < 30 ∧ f.category = "overweight" ∧ f.priority = "medium") ∨
         (30 ≤ wgt / hgt ^ 2 ∧ f.category = "obese" ∧ f.priority = "high"))) ∧
    (bl ≠ [] ↔
      ∃ hgt wgt, m.height = some hgt ∧ m.weight = some wgt ∧ 25 ≤ wgt / hgt ^ 2) := by
  rcases hh : m.height with _ | hgt
  · simp [bmiRisk, hh] at hbl
    subst hbl
    simp [hh]
  · rcases hw : m.weight with _ | wgt
    · simp [bmiRisk, hh, hw] at hbl
      subst hbl
      simp [hw]
    · simp only [bmiRisk, hh, hw] at hbl
      by_cases hz : hgt ^ 2 = 0
      · rw [if_pos hz] at hbl
        exact absurd hbl (by simp)
      · rw [if_neg hz] at hbl
        rw [Option.some.injEq] at hbl
        by_cases hge : 25 ≤ wgt / hgt ^ 2
        · rw [if_pos hge] at hbl
          subst hbl
          refine ⟨by simp, ?_, ?_⟩
          · intro f hf
            rw [List.mem_singleton] at hf
            subst hf
            refine ⟨rfl, hgt, wgt, rfl, rfl, rfl, ?_⟩
            by_cases h30 : wgt / hgt ^ 2 < 30
            · exact Or.inl ⟨h30, by simp [h30], by simp [h30]⟩
            · exact Or.inr ⟨not_lt.mp h30, by simp [h30], by simp [h30]⟩
          · constructor
            · intro _
              exact ⟨hgt, wgt, rfl, rfl, hge⟩
            · intro _
              simp
        · rw [if_neg hge] at hbl
          subst hbl
          refine ⟨by simp, by simp, ?_⟩
          constructor
          · intro hne
            exact absurd rfl hne
          · rintro ⟨hgt2, wgt2, heq, weq, hge2⟩
            rw [Option.some.injEq] at heq
            rw [Option.some.injEq] at weq
            subst heq
            subst weq
            exact absurd hge2 hge

/-- Characterisation of the blood-pressure block: it yields at most one
factor, that factor is the blood-pressure factor carrying the classified
category and a priority driven by `needs_attention`, and a factor is emitted
exactly when both readings are present and classify as stage1, stage2 or
crisis. -/
theorem bpRisk_spec (m : Metrics) :
    (bpRisk m).length ≤ 1 ∧
    (∀ f ∈ bpRisk m, f.factor = "Blood Pressure" ∧
      ∃ sys dia, m.systolic = some sys ∧ m.diastolic = some dia ∧
        f.category = (analyze_blood_pressure sys dia).category ∧
        f.priority =
          (if (analyze_blood_pressure sys dia).needs_attention then "high" else "medium")) ∧
    (bpRisk m ≠ [] ↔
      ∃ sys dia, m.systolic = some sys ∧ m.diastolic = some dia ∧
        (analyze_blood_pressure sys dia).category ∈
          (["stage1", "stage2", "crisis"] : List String)) := by
  rcases hs : m.systolic with _ | sys
  · simp [bpRisk, hs]
  · rcases hd : m.diastolic with _ | dia
    · simp [bpRisk, hs, hd]
    · simp only [bpRisk, hs, hd]
      by_cases hcat : (analyze_blood_pressure sys dia).category ∈
          (["stage1", "stage2", "crisis"] : List String)
      · rw [if_pos hcat]
        refine ⟨by simp, ?_, ?_⟩
        · intro f hf
          rw [List.mem_singleton] at hf
          subst hf
          exact ⟨rfl, sys, dia, rfl, rfl, rfl, rfl⟩
        · constructor
          · intro _
            exact ⟨sys, dia, rfl, rfl, hcat⟩
          · intro _
            simp
      · rw [if_neg hcat]
        refine ⟨by simp, by simp, ?_⟩
        constructor
        · intro hne
          exact absurd rfl hne
        · rintro ⟨sys2, dia2, heq, weq, hcat2⟩
          rw [Option.some.injEq] at heq
          rw [Option.some.injEq] at weq
          subst heq
          subst weq
          exact absurd hcat2 hcat

/-- C4: whenever `_identify_risk_factors` returns, it returns at most two
factors, the BMI factor (emitted iff height and weight are present with
weight/height² at least 25, categorised overweight/medium below BMI 30 and
obese/high from 30) always preceding the blood-pressure factor (emitted iff
both readings are present and classify stage1, stage2 or crisis, with
priority high iff `needs_attention` else medium); in particular a snapshot
with height 1.7 and weight 90 yields exactly the BMI factor, obese, high. -/
theorem risk_factors_spec (m : Metrics) (rfs : List RiskFactor)
    (h : identify_risk_factors m = some rfs) :
    rfs.length ≤ 2 ∧
    rfs.map RiskFactor.factor ∈
      ([[], ["BMI"], ["Blood Pressure"], ["BMI", "Blood Pressure"]] : List (List String)) ∧
    ((∃ f ∈ rfs, f.factor = "BMI") ↔
      ∃ hgt wgt, m.height = some hgt ∧ m.weight = some wgt ∧ 25 ≤ wgt / hgt ^ 2) ∧
    (∀ f ∈ rfs, f.factor = "BMI" →
      ∃ hgt wgt, m.height = some hgt ∧ m.weight = some wgt ∧
        f.value = RFValue.num (wgt / hgt ^ 2) ∧
        ((wgt / hgt ^ 2 < 30 ∧ f.category = "overweight" ∧ f.priority = "medium") ∨
         (30 ≤ wgt / hgt ^ 2 ∧ f.category = "obese" ∧ f.priority = "high"))) ∧
    ((∃ f ∈ rfs, f.factor = "Blood Pressure") ↔
      ∃ sys dia, m.systolic = some sys ∧ m.diastolic = some dia ∧
        (analyze_blood_pressure sys dia).category ∈
          (["stage1", "stage2", "crisis"] : List String)) ∧
    (∀ f ∈ rfs, f.factor = "Blood Pressure" →
      ∃ sys dia, m.systolic = some sys ∧ m.diastolic = some dia ∧
        f.category = (analyze_blood_pressure sys dia).category ∧
        f.priority =
          (if (analyze_blood_pressure sys dia).needs_attention then "high" else "medium")) ∧
    identify_risk_factors ⟨none, none, none, none, some 1.7, some 90⟩ =
      some [{ factor := "BMI", value := RFValue.num (90 / (1.7:ℚ) ^ 2),
              category := "obese", priority := "high" }] := by
  obtain ⟨bl, hbl, rfl⟩ := Option.map_eq_some'.mp h
  obtain ⟨hbl1, hbl2, hbl3⟩ := bmiRisk_spec m bl hbl
  obtain ⟨hbp1, hbp2, hbp3⟩ := bpRisk_spec m
  have hlen : (bl ++ bpRisk m).length ≤ 2 := by
    rw [List.length_append]
    omega
  have hshape : (bl ++ bpRisk m).map RiskFactor.factor ∈
      ([[], ["BMI"], ["Blood Pressure"], ["BMI", "Blood Pressure"]] : List (List String)) := by
    rw [List.map_append]
    rcases bl with _ | ⟨f, bl2⟩
    · rcases e : bpRisk m with _ | ⟨g, bp2⟩
      · simp
      · have hg : g.factor = "Blood Pressure" :=
          (hbp2 g (by rw [e]; exact List.mem_cons_self g bp2)).1
        have hbp2nil : bp2 = [] := by
          rw [e] at hbp1
          simpa using hbp1
        subst hbp2nil
        simp [hg]
    · have hbl2nil : bl2 = [] := by
        simpa using hbl1
      subst hbl2nil
      have hf : f.factor = "BMI" := (hbl2 f (List.mem_cons_self f [])).1
      rcases e : bpRisk m with _ | ⟨g, bp2⟩
      · simp [hf]
      · have hg : g.factor = "Blood Pressure" :=
          (hbp2 g (by rw [e]; exact List.mem_cons_self g bp2)).1
        have hbp2nil : bp2 = [] := by
          rw [e] at hbp1
          simpa using hbp1
        subst hbp2nil
        simp [hf, hg]
  refine ⟨hlen, hshape, ⟨?_, ?_⟩, ?_, ⟨?_, ?_⟩, ?_,
    by norm_num [identify_risk_factors, bmiRisk, bpRisk]⟩
  · rintro ⟨f, hf, hfac⟩
    rcases List.mem_append.mp hf with hmem | hmem
    · exact hbl3.mp (List.ne_nil_of_mem hmem)
    · exact absurd (hfac.symm.trans (hbp2 f hmem).1) (by decide)
  · intro hcond
    have hne : bl ≠ [] := hbl3.mpr hcond
    obtain ⟨f, hf⟩ := List.exists_mem_of_ne_nil bl hne
    exact ⟨f, List.mem_append_left _ hf, (hbl2 f hf).1⟩
  · intro f hf hfac
    rcases List.mem_append.mp hf with hmem | hmem
    · exact (hbl2 f hmem).2
    · exact absurd (hfac.symm.trans (hbp2 f hmem).1) (by decide)
  · rintro ⟨f, hf, hfac⟩
    rcases List.mem_append.mp hf with hmem | hmem
    · exact absurd (hfac.symm.trans (hbl2 f hmem).1) (by decide)
    · exact hbp3.mp (List.ne_nil_of_mem hmem)
  · intro hcond
    have hne : bpRisk m ≠ [] := hbp3.mpr hcond
    obtain ⟨f, hf⟩ := List.exists_mem_of_ne_nil (bpRisk m) hne
    exact ⟨f, List.mem_append_right _ hf, (hbp2 f hf).1⟩
  · intro f hf hfac
    rcases List.mem_append.mp hf with hmem | hmem
    · exact absurd (hfac.symm.trans (hbl2 f hmem).1) (by decide)
    · exact (hbp2 f hmem).2

/-- C4 witness: the statement applied to the empty snapshot, whose factor
list is empty. -/
theorem risk_factors_spec_witness :
    ([] : List RiskFactor).length ≤ 2 ∧
    ([] : List RiskFactor).map RiskFactor.factor ∈
      ([[], ["BMI"], ["Blood Pressure"], ["BMI", "Blood Pressure"]] : List (List String)) ∧
    ((∃ f ∈ ([] : List RiskFactor), f.factor = "BMI") ↔
      ∃ hgt wgt, (none : Option ℚ) = some hgt ∧ (none : Option ℚ) = some wgt ∧
        25 ≤ wgt / hgt ^ 2) ∧
    (∀ f ∈ ([] : List RiskFactor), f.factor = "BMI" →
      ∃ hgt wgt, (none : Option ℚ) = some hgt ∧ (none : Option ℚ) = some wgt ∧
        f.value = RFValue.num (wgt / hgt ^ 2) ∧
        ((wgt / hgt ^ 2 < 30 ∧ f.category = "overweight" ∧ f.priority = "medium") ∨
         (30 ≤ wgt / hgt ^ 2 ∧ f.category = "obese" ∧ f.priority = "high"))) ∧
    ((∃ f ∈ ([] : List RiskFactor), f.factor = "Blood Pressure") ↔
      ∃ sys dia, (none : Option ℚ) = some sys ∧ (none : Option ℚ) = some dia ∧
        (analyze_blood_pressure sys dia).category ∈
          (["stage1", "stage2", "crisis"] : List String)) ∧
    (∀ f ∈ ([] : List RiskFactor), f.factor = "Blood Pressure" →
      ∃ sys dia, (none : Option ℚ) = some sys ∧ (none : Option ℚ) = some dia ∧
        f.category = (analyze_blood_pressure sys dia).category ∧
        f.priority =
          (if (analyze_blood_pressure sys dia).needs_attention then "high" else "medium")) ∧
    identify_risk_factors ⟨none, none, none, none, some 1.7, some 90⟩ =
      some [{ factor := "BMI", value := RFValue.num (90 / (1.7:ℚ) ^ 2),
              category := "obese", priority := "high" }] :=
  risk_factors_spec ⟨none, none, none, none, none, none⟩ [] rfl

/-- C10 counterexample: the snapshot with every vital field missing but
height 0 and weight 70 present makes `analyze_health_metrics` raise
(`ZeroDivisionError` in the BMI computation), embedded as returning
nothing. -/
theorem analyze_zero_height_raises_cex :
    Metrics.systolic ⟨none, none, none, none, some 0, some 70⟩ = none ∧
    Metrics.diastolic ⟨none, none, none, none, some 0, some 70⟩ = none ∧
    Metrics.heart_rate ⟨none, none, none, none, some 0, some 70⟩ = none ∧
    Metrics.temperature ⟨none, none, none, none, some 0, some 70⟩ = none ∧
    analyze_health_metrics ⟨none, none, none, none, some 0, some 70⟩ = none := by
  refine ⟨rfl, rfl, rfl, rfl, ?_⟩
  norm_num [analyze_health_metrics, identify_risk_factors, bmiRisk]

/-- C10 (amended): provided any present height is nonzero (height 0 with
weight present raises in the BMI division), `analyze_health_metrics` returns
stats on every snapshot; absent vital fields are substituted with 0, so
missing blood-pressure readings are reported as `analyze_blood_pressure 0 0`
— category `normal`, unflagged — while a missing heart rate is reported as
`analyze_heart_rate 0` — category `abnormal`, flagged — and a missing
temperature as `analyze_temperature 0` — category `abnormal`, unflagged. -/
theorem analyze_missing_fields_defaults (m : Metrics)
    (hh : ∀ x, m.height = some x → x ≠ 0) :
    ∃ s, analyze_health_metrics m = some s ∧
      (m.systolic = none → m.diastolic = none →
        s.vital_signs.blood_pressure = analyze_blood_pressure 0 0 ∧
        s.vital_signs.blood_pressure.category = "normal" ∧
        s.vital_signs.blood_pressure.needs_attention = false) ∧
      (m.heart_rate = none →
        s.vital_signs.heart_rate = analyze_heart_rate 0 ∧
        s.vital_signs.heart_rate.category = "abnormal" ∧
        s.vital_signs.heart_rate.needs_attention = true) ∧
      (m.temperature = none →
        s.vital_signs.temperature = analyze_temperature 0 ∧
        s.vital_signs.temperature.category = "abnormal" ∧
        s.vital_signs.temperature.needs_attention = false) := by
  obtain ⟨msys, mdia, mhr, mtemp, mhgt, mwgt⟩ := m
  have hbmi : ∃ bl, bmiRisk ⟨msys, mdia, mhr, mtemp, mhgt, mwgt⟩ = some bl := by
    cases mhgt with
    | none =>
      cases mwgt <;> exact ⟨_, rfl⟩
    | some hgt =>
      cases mwgt with
      | none => exact ⟨_, rfl⟩
      | some wgt =>
        have hz : hgt ^ 2 ≠ 0 := pow_ne_zero 2 (hh hgt rfl)
        refine ⟨if 25 ≤ wgt / hgt ^ 2 then
            [{ factor := "BMI", value := .num (wgt / hgt ^ 2),
               category := if wgt / hgt ^ 2 < 30 then "overweight" else "obese",
               priority := if wgt / hgt ^ 2 < 30 then "medium" else "high" }]
          else [], ?_⟩
        simp only [bmiRisk]
        rw [if_neg hz]
  obtain ⟨bl, hbl⟩ := hbmi
  refine ⟨{ vital_signs :=
              { blood_pressure := analyze_blood_pressure (msys.getD 0) (mdia.getD 0)
                heart_rate := analyze_heart_rate (mhr.getD 0)
                temperature := analyze_temperature (mtemp.getD 0) }
            trends := calculate_trends (metricsFrame ⟨msys, mdia, mhr, mtemp, mhgt, mwgt⟩)
            risk_factors := bl ++ bpRisk ⟨msys, mdia, mhr, mtemp, mhgt, mwgt⟩ },
    ?_, ?_, ?_, ?_⟩
  · simp only [analyze_health_metrics, identify_risk_factors, hbl, Option.map_some']
  · intro h1 h2
    subst h1
    subst h2
    exact ⟨rfl, (by decide : (analyze_blood_pressure 0 0).category = "normal"),
      (by decide : (analyze_blood_pressure 0 0).needs_attention = false)⟩
  · intro h1
    subst h1
    exact ⟨rfl, (by decide : (analyze_heart_rate 0).category = "abnormal"),
      (by decide : (analyze_heart_rate 0).needs_attention = true)⟩
  · intro h1
    subst h1
    exact ⟨rfl,
      (by norm_num [analyze_temperature] : (analyze_temperature 0).category = "abnormal"),
      (by norm_num [analyze_temperature] : (analyze_temperature 0).needs_attention = false)⟩

/-- C10 witness: the amended statement applied to the empty snapshot. -/
theorem analyze_missing_fields_defaults_witness :
    ∃ s, analyze_health_metrics ⟨none, none, none, none, none, none⟩ = some s ∧
      ((none : Option ℚ) = none → (none : Option ℚ) = none →
        s.vital_signs.blood_pressure = analyze_blood_pressure 0 0 ∧
        s.vital_signs.blood_pressure.category = "normal" ∧
        s.vital_signs.blood_pressure.needs_attention = false) ∧
      ((none : Option ℚ) = none →
        s.vital_signs.heart_rate = analyze_heart_rate 0 ∧
        s.vital_signs.heart_rate.category = "abnormal" ∧
        s.vital_signs.heart_rate.needs_attention = true) ∧
      ((none : Option ℚ) = none →
        s.vital_signs.temperature = analyze_temperature 0 ∧
        s.vital_signs.temperature.category = "abnormal" ∧
        s.vital_signs.temperature.needs_attention = false) :=
  analyze_missing_fields_defaults ⟨none, none, none, none, none, none⟩
    (fun x hx => absurd hx (by simp))
